import Mathlib

/-!
Shallow embedding of the rate-limiting and caching core of the
webpage-summarizer repository.

Time is modelled as integer seconds since the epoch (the Python code uses
`time.time()`; on integer-valued times every formula below agrees with the
Python float arithmetic, and `int(x)` is truncation toward zero, embedded
as `Int.tdiv`).  File I/O is modelled by explicit stores
(`String → Option _`): `none` stands for a missing or unreadable record,
matching the `except`-to-default handling in the source.  A Python
exception escaping a function is modelled by an `Option` result of `none`
(`min([])` raises `ValueError`).
-/

namespace WebpageSummarizer

/-- Configuration of the rate limiter (`RateLimiter.__init__` in
`src/backend/rate_limiter.py`): `hourly_limit`, `daily_limit`,
`cooldown_seconds` are read from the environment as Python ints. -/
structure Config where
  hourly_limit : Int
  daily_limit : Int
  cooldown_seconds : Int
  deriving Repr, DecidableEq

/-- The default configuration: `DEFAULT_HOUR_LIMIT = 10`,
`DEFAULT_DAILY_LIMIT = 25`, `DEFAULT_COOLDOWN_SECONDS = 60`. -/
def defaultConfig : Config := ⟨10, 25, 60⟩

/-- One per-client record, as persisted in `ip_<addr>.json`: a list of
request timestamps together with the time of the last request. -/
structure IPData where
  requests : List Int
  last_request : Int
  deriving Repr, DecidableEq

/-- The default record returned by `_load_ip_data` when the file is missing
or unreadable: no requests, last request 0. -/
def defaultIPData : IPData := ⟨[], 0⟩

/-- `RateLimitType` enum from `src/backend/rate_limiter.py`. -/
inductive RateLimitType
  | NONE
  | COOLDOWN
  | HOURLY_LIMIT
  | DAILY_LIMIT
  deriving Repr, DecidableEq

/-- Usage statistics dictionary built by `RateLimiter._get_usage_stats`. -/
structure UsageStats where
  hourly_used : Int
  hourly_limit : Int
  daily_used : Int
  daily_limit : Int
  hourly_remaining : Int
  daily_remaining : Int
  deriving Repr, DecidableEq

/-- `RateLimitResult` dataclass from `src/backend/rate_limiter.py`. -/
structure RateLimitResult where
  valid : Bool
  limit_type : RateLimitType
  remaining_cooldown : Int
  next_reset : Int
  stats : UsageStats
  deriving Repr, DecidableEq

/-- `RateLimiter._cleanup_old_requests`: keep only the timestamps strictly
newer than `current_time - 24*3600`. -/
def cleanup_old_requests (requests_data : List Int) (current_time : Int) : List Int :=
  let cutoff_time := current_time - 24 * 3600
  requests_data.filter (fun req_time => req_time > cutoff_time)

/-- `RateLimiter._get_reminder_cooldown`: seconds of cooldown left, 0 when
the cooldown has elapsed.  On integer times the Python `int(...)` wrapper
around the subtraction is the identity. -/
def get_reminder_cooldown (cfg : Config) (data : IPData) (current_time : Int) : Int :=
  if current_time - data.last_request < cfg.cooldown_seconds then
    cfg.cooldown_seconds - (current_time - data.last_request)
  else 0

/-- `RateLimiter._get_next_reset`: hourly check first, then daily.
`min` of an empty Python list raises `ValueError`, modelled as `none`. -/
def get_next_reset (cfg : Config) (requests : List Int) (current_time : Int) : Option Int :=
  let hour_ago := current_time - 3600
  let hourly_requests := requests.filter (fun req => req > hour_ago)
  if (hourly_requests.length : Int) ≥ cfg.hourly_limit then
    match hourly_requests.min? with
    | some m => some ((m + 3600 - current_time).tdiv 60)
    | none => none
  else if (requests.length : Int) ≥ cfg.daily_limit then
    match requests.min? with
    | some m => some ((m + 24 * 3600 - current_time).tdiv 3600)
    | none => none
  else
    some 0

/-- `RateLimiter._get_usage_stats`. -/
def get_usage_stats (cfg : Config) (requests : List Int) (current_time : Int) : UsageStats :=
  let hour_ago := current_time - 3600
  let hourly_count : Int := (requests.filter (fun req => req > hour_ago)).length
  let daily_count : Int := requests.length
  { hourly_used := hourly_count
    hourly_limit := cfg.hourly_limit
    daily_used := daily_count
    daily_limit := cfg.daily_limit
    hourly_remaining := max 0 (cfg.hourly_limit - hourly_count)
    daily_remaining := max 0 (cfg.daily_limit - daily_count) }

/-- `RateLimiter.check_rate_limit` from `src/backend/rate_limiter.py`,
with the loaded record and the current time passed explicitly (the Python
method obtains them from `_load_ip_data` and `time.time()`).  The
`requests` of the record are cleaned first; the cooldown remainder and the next-reset
value are both computed; the result classifies the denial from those two
numbers. -/
def check_rate_limit (cfg : Config) (data0 : IPData) (current_time : Int) :
    Option RateLimitResult :=
  let data : IPData := { data0 with requests := cleanup_old_requests data0.requests current_time }
  let reminder_cooldown := get_reminder_cooldown cfg data current_time
  match get_next_reset cfg data.requests current_time with
  | none => none
  | some next_reset =>
      let is_valid := reminder_cooldown == 0 && next_reset == 0
      let limit_type :=
        if is_valid then RateLimitType.NONE
        else if reminder_cooldown > 0 then RateLimitType.COOLDOWN
        else if next_reset < 60 then RateLimitType.HOURLY_LIMIT
        else RateLimitType.DAILY_LIMIT
      some { valid := is_valid
             limit_type := limit_type
             remaining_cooldown := reminder_cooldown
             next_reset := next_reset
             stats := get_usage_stats cfg data.requests current_time }

/-- `RateLimiter.record_request` (identical in `src/backend/rate_limiter.py`
and `src/app.py`): append `current_time`, set `last_request`, re-apply the
24h cleanup; the result is what gets persisted. -/
def record_request (data0 : IPData) (current_time : Int) : IPData :=
  let requests1 := data0.requests ++ [current_time]
  { requests := cleanup_old_requests requests1 current_time
    last_request := current_time }

/-- `RateLimiter._load_ip_data`: a missing or unreadable file yields the
default record.  The store maps a client identifier to its persisted
record, `none` covering both a missing file and a JSON decode failure. -/
def load_ip_data (store : String → Option IPData) (ip_address : String) : IPData :=
  match store ip_address with
  | some d => d
  | none => defaultIPData

/-- One cache file, holding the url, the cached summary and its creation
timestamp, as written by `URLCache.set`. -/
structure CacheEntry where
  url : String
  summary : String
  timestamp : Int
  deriving Repr, DecidableEq

/-- State of `URLCache` (`src/backend/cache.py`): the `cache_enabled` flag
(false when the cache directory could not be created — the inline copy in
`src/app.py` is the same code with this flag always true), the TTL in
hours, and the stored entries.  Keys are MD5 hashes of the URL; the hash is
deterministic, so entries are modelled as keyed by the URL itself. -/
structure URLCache where
  cache_enabled : Bool
  cache_hours : Int
  entries : String → Option CacheEntry

/-- `URLCache.get`: returns the cached summary and the possibly updated
cache state (an expired entry is deleted as a side effect). -/
def cache_get (c : URLCache) (url : String) (current_time : Int) :
    Option String × URLCache :=
  if c.cache_enabled = false then (none, c)
  else
    match c.entries url with
    | none => (none, c)
    | some data =>
        if current_time - data.timestamp > c.cache_hours * 3600 then
          (none, { c with entries := fun k => if k = url then none else c.entries k })
        else
          (some data.summary, c)

/-- `URLCache.set`: overwrite the entry for `url` with a fresh timestamp.
A disabled cache ignores the write. -/
def cache_set (c : URLCache) (url summary : String) (current_time : Int) : URLCache :=
  if c.cache_enabled = false then c
  else { c with entries := fun k => if k = url then some ⟨url, summary, current_time⟩ else c.entries k }

/-- The message part of the tuple returned by the `RateLimiter` embedded in
`src/app.py` (its `check_rate_limit` returns `(allowed, message, stats)`;
the f-string messages are represented by their constructor and the numbers
interpolated into them). -/
inductive AppMessage
  | cooldownWait (remaining_cooldown : Int)
  | hourlyLimitReached (limit next_reset : Int)
  | dailyLimitReached (limit next_reset : Int)
  | requestAllowed
  deriving Repr, DecidableEq

/-- `RateLimiter.check_rate_limit` from `src/app.py`: early-return style,
cooldown first, then hourly, then daily; result is
`(allowed, message, stats)`.  `min([])` raising is again `none`. -/
def app_check_rate_limit (cfg : Config) (data0 : IPData) (current_time : Int) :
    Option (Bool × AppMessage × UsageStats) :=
  let requests := cleanup_old_requests data0.requests current_time
  if current_time - data0.last_request < cfg.cooldown_seconds then
    let remaining_cooldown := cfg.cooldown_seconds - (current_time - data0.last_request)
    some (false, .cooldownWait remaining_cooldown, get_usage_stats cfg requests current_time)
  else
    let hour_ago := current_time - 3600
    let hourly_requests := requests.filter (fun req => req > hour_ago)
    if (hourly_requests.length : Int) ≥ cfg.hourly_limit then
      match hourly_requests.min? with
      | some m =>
          some (false, .hourlyLimitReached cfg.hourly_limit ((m + 3600 - current_time).tdiv 60),
                get_usage_stats cfg requests current_time)
      | none => none
    else if (requests.length : Int) ≥ cfg.daily_limit then
      match requests.min? with
      | some m =>
          some (false, .dailyLimitReached cfg.daily_limit ((m + 24 * 3600 - current_time).tdiv 3600),
                get_usage_stats cfg requests current_time)
      | none => none
    else
      some (true, .requestAllowed, get_usage_stats cfg requests current_time)

/-- The persistent state the orchestrator in `src/app.py` touches: the
rate-limit store (one record per client identifier) and the URL cache. -/
structure WorldState where
  limiter_store : String → Option IPData
  cache : URLCache

/-- Outcome of `summarize_webpage` in `src/app.py`.  The Python function
returns formatted strings; each constructor keeps the data interpolated
into the corresponding f-string. -/
inductive Response
  | cachedResult (summary : String)
  | rateLimited (message : AppMessage) (stats : UsageStats)
  | success (summary : String) (stats : UsageStats)
  | errorResult
  deriving Repr, DecidableEq

/-- Continuation of `summarize_webpage` after the cache lookup missed
(`src/app.py` lines 247-276): rate-limit check, record, external
fetch+summarize, cache store, and the `updated_stats` footer computed from
`[time.time()] + rate_limiter._cleanup_old_requests([], time.time())`.
`external_summary` is the outcome of the external crawler+LLM collaborator
(`none` = it raised; the surrounding `try` converts that to an error
result). -/
def handle_uncached (cfg : Config) (w1 : WorldState) (url client_ip : String)
    (current_time : Int) (external_summary : Option String) : Response × WorldState :=
  let data0 := load_ip_data w1.limiter_store client_ip
  match app_check_rate_limit cfg data0 current_time with
  | none => (.errorResult, w1)
  | some (allowed, message, stats) =>
      if allowed = false then (.rateLimited message stats, w1)
      else
        let data1 := record_request (load_ip_data w1.limiter_store client_ip) current_time
        let w2 : WorldState :=
          { w1 with limiter_store := fun k => if k = client_ip then some data1 else w1.limiter_store k }
        match external_summary with
        | none => (.errorResult, w2)
        | some summary =>
            let w3 : WorldState := { w2 with cache := cache_set w2.cache url summary current_time }
            let updated_stats :=
              get_usage_stats cfg ([current_time] ++ cleanup_old_requests [] current_time) current_time
            (.success summary updated_stats, w3)

/-- `summarize_webpage` from `src/app.py`: cache lookup first; a truthy
cached summary (non-`None` and non-empty, Python `if cached_summary:`) is
returned immediately, bypassing the rate limiter; otherwise the request
goes through `handle_uncached`. -/
def summarize_webpage (cfg : Config) (w : WorldState) (url client_ip : String)
    (current_time : Int) (external_summary : Option String) : Response × WorldState :=
  let looked := cache_get w.cache url current_time
  let w1 : WorldState := { w with cache := looked.2 }
  match looked.1 with
  | some s =>
      if s = "" then handle_uncached cfg w1 url client_ip current_time external_summary
      else (.cachedResult s, w1)
  | none => handle_uncached cfg w1 url client_ip current_time external_summary



/-- Example world used for the statistics claim: the client has two
requests inside the last hour, the cache is empty. -/
def statsExampleWorld : WorldState :=
  ⟨fun k => if k = "c" then some ⟨[19500, 19600], 19600⟩ else none,
   ⟨true, 24, fun _ => none⟩⟩

/-- Example world used for the empty-cached-summary claim: a valid,
unexpired cache entry for "u" whose stored summary is the empty string. -/
def emptySummaryWorld : WorldState :=
  ⟨fun k => if k = "c" then some ⟨[10000], 10000⟩ else none,
   ⟨true, 24, fun k => if k = "u" then some ⟨"u", "", 19000⟩ else none⟩⟩

/-- Helper: with positive hourly and daily limits, `_get_next_reset` never
hits the empty-`min` failure case. -/
theorem get_next_reset_isSome (cfg : Config) (requests : List Int) (now : Int)
    (hhl : 1 ≤ cfg.hourly_limit) (hdl : 1 ≤ cfg.daily_limit) :
    ∃ n, get_next_reset cfg requests now = some n := by
  by_cases h1 : ((requests.filter (fun req => req > now - 3600)).length : Int) ≥ cfg.hourly_limit
  · rcases hmin : (requests.filter (fun req => req > now - 3600)).min? with _ | m
    · exfalso
      have h0 := List.min?_eq_none_iff.mp hmin
      rw [h0] at h1
      simp at h1
      omega
    · exact ⟨_, by simp only [get_next_reset]; rw [if_pos h1, hmin]⟩
  · by_cases h2 : ((requests.length : Int) ≥ cfg.daily_limit)
    · rcases hmin : requests.min? with _ | m
      · exfalso
        have h0 := List.min?_eq_none_iff.mp hmin
        rw [h0] at h2
        simp at h2
        omega
      · exact ⟨_, by simp only [get_next_reset]; rw [if_neg h1, if_pos h2, hmin]⟩
    · exact ⟨0, by simp only [get_next_reset]; rw [if_neg h1, if_neg h2]⟩

/-- Claim C9: the 24-hour retention cleanup is idempotent — running
`_cleanup_old_requests` twice at the same `now` yields the same retained
list as running it once — and every retained entry is strictly newer than
24 hours before `now`, so entries older than 24 hours never count toward
hourly or daily totals. -/
theorem cleanup_idempotent (l : List Int) (now : Int) :
    cleanup_old_requests (cleanup_old_requests l now) now = cleanup_old_requests l now ∧
    ∀ t ∈ cleanup_old_requests l now, now - 24 * 3600 < t := by
  constructor
  · apply List.filter_eq_self.mpr
    intro a ha
    exact (List.mem_filter.mp ha).2
  · intro t ht
    have h := (List.mem_filter.mp ht).2
    simpa using h

/-- Concrete instance of the cleanup idempotence claim. -/
theorem cleanup_idempotent_witness :
    cleanup_old_requests (cleanup_old_requests [1, 100000] 90000) 90000 =
      cleanup_old_requests [1, 100000] 90000 ∧
    ∀ t ∈ cleanup_old_requests [1, 100000] 90000, 90000 - 24 * 3600 < t :=
  cleanup_idempotent [1, 100000] 90000

/-- Claim C8: `record_request` preserves the record invariant: it sets
`last_request = now`, re-applies the 24-hour cleanup to the appended list
before persisting, and in the persisted record every retained request is
at most `last_request` and strictly newer than 24 hours before `now` —
provided the old record satisfied the invariant and was written at or
before `now`.  (`check_rate_limit` writes nothing back, so it cannot break
the stored invariant.) -/
theorem record_request_preserves_invariant (data : IPData) (now : Int)
    (hmono : data.last_request ≤ now)
    (hinv : ∀ r ∈ data.requests, r ≤ data.last_request) :
    (record_request data now).last_request = now ∧
    (record_request data now).requests = cleanup_old_requests (data.requests ++ [now]) now ∧
    ∀ r ∈ (record_request data now).requests,
      r ≤ (record_request data now).last_request ∧ now - 24 * 3600 < r := by
  refine ⟨rfl, rfl, ?_⟩
  intro r hr
  simp only [record_request, cleanup_old_requests] at hr ⊢
  rcases List.mem_filter.mp hr with ⟨hmem, hgt⟩
  constructor
  · rcases List.mem_append.mp hmem with h | h
    · exact le_trans (hinv r h) hmono
    · simp at h
      omega
  · simpa using hgt

/-- Concrete instance of the record invariant preservation claim. -/
theorem record_request_preserves_invariant_witness :
    (50 : Int) ≤ 100 ∧
    ((record_request ⟨[40, 50], 50⟩ 100).last_request = 100 ∧
     (record_request ⟨[40, 50], 50⟩ 100).requests =
       cleanup_old_requests ([40, 50] ++ [100]) 100 ∧
     ∀ r ∈ (record_request ⟨[40, 50], 50⟩ 100).requests,
       r ≤ (record_request ⟨[40, 50], 50⟩ 100).last_request ∧ (100 : Int) - 24 * 3600 < r) :=
  ⟨by decide,
   record_request_preserves_invariant ⟨[40, 50], 50⟩ 100 (by decide) (by decide)⟩



/-- Claim C3: with positive hourly and daily limits, whenever
`now - last_request < cooldown_seconds`, `check_rate_limit` denies the
request with `limit_type = COOLDOWN` and
`remaining_cooldown = cooldown_seconds - (now - last_request)` (on integer
times this equals the ceiling stated in the claim). -/
theorem checkRateLimit_cooldown_denies (cfg : Config) (data : IPData) (now : Int)
    (hhl : 1 ≤ cfg.hourly_limit) (hdl : 1 ≤ cfg.daily_limit)
    (hc : now - data.last_request < cfg.cooldown_seconds) :
    ∃ r, check_rate_limit cfg data now = some r ∧
      r.valid = false ∧ r.limit_type = RateLimitType.COOLDOWN ∧
      r.remaining_cooldown = cfg.cooldown_seconds - (now - data.last_request) := by
  obtain ⟨n, hn⟩ := get_next_reset_isSome cfg (cleanup_old_requests data.requests now) now hhl hdl
  have hpos : 0 < cfg.cooldown_seconds - (now - data.last_request) := by omega
  have hrem : get_reminder_cooldown cfg
      { data with requests := cleanup_old_requests data.requests now } now
      = cfg.cooldown_seconds - (now - data.last_request) := by
    simp only [get_reminder_cooldown]
    exact if_pos hc
  have hbeq : (cfg.cooldown_seconds - (now - data.last_request) == 0) = false := by
    rw [beq_eq_false_iff_ne]
    omega
  have hck : check_rate_limit cfg data now = some
      { valid := false
        limit_type := RateLimitType.COOLDOWN
        remaining_cooldown := cfg.cooldown_seconds - (now - data.last_request)
        next_reset := n
        stats := get_usage_stats cfg (cleanup_old_requests data.requests now) now } := by
    simp only [check_rate_limit, hrem, hn]
    simp [hbeq, hpos]
  exact ⟨_, hck, rfl, rfl, rfl⟩


/-- Concrete instance of the cooldown denial claim. -/
theorem checkRateLimit_cooldown_denies_witness :
    (130 : Int) - (100 : Int) < (60 : Int) ∧
    ∃ r, check_rate_limit defaultConfig ⟨[], 100⟩ 130 = some r ∧
      r.valid = false ∧ r.limit_type = RateLimitType.COOLDOWN ∧
      r.remaining_cooldown = (60 : Int) - (130 - 100) :=
  ⟨by decide,
   checkRateLimit_cooldown_denies defaultConfig ⟨[], 100⟩ 130 (by decide) (by decide) (by decide)⟩

/-- Claim C6, counterexample: at time `T = 0`, which is less than the
default 60-second cooldown, a never-seen client is denied with kind
COOLDOWN, because the default record has `last_request = 0` and
`0 - 0 < 60`; the claim as stated quantifies over every time `T`. -/
theorem checkRateLimit_never_seen_client_denied_at_time_zero :
    load_ip_data (fun _ => none) "203.0.113.7" = defaultIPData ∧
    (check_rate_limit defaultConfig (load_ip_data (fun _ => none) "203.0.113.7") 0).map
        (fun r => r.valid) = some false := by
  constructor
  · rfl
  · decide

/-- Claim C6 (amended): a missing or unreadable stored record loads as the
empty default record, and for every time `T` at least `cooldown_seconds`
(with positive hourly and daily limits) `check_rate_limit` on that default
record returns valid = true. -/
theorem checkRateLimit_never_seen_client_allowed (store : String → Option IPData)
    (client : String) (cfg : Config) (T : Int)
    (hmiss : store client = none)
    (hhl : 1 ≤ cfg.hourly_limit) (hdl : 1 ≤ cfg.daily_limit)
    (hT : cfg.cooldown_seconds ≤ T) :
    load_ip_data store client = defaultIPData ∧
    check_rate_limit cfg (load_ip_data store client) T =
      some { valid := true
             limit_type := RateLimitType.NONE
             remaining_cooldown := 0
             next_reset := 0
             stats := get_usage_stats cfg [] T } := by
  have hload : load_ip_data store client = defaultIPData := by
    simp [load_ip_data, hmiss]
  have hc : ¬ (T < cfg.cooldown_seconds) := by omega
  have h1 : ¬ ((0 : Int) ≥ cfg.hourly_limit) := by omega
  have h2 : ¬ ((0 : Int) ≥ cfg.daily_limit) := by omega
  refine ⟨hload, ?_⟩
  rw [hload]
  simp [check_rate_limit, defaultIPData, cleanup_old_requests, get_reminder_cooldown,
        get_next_reset, hc, h1, h2]

/-- Concrete instance of the never-seen-client claim. -/
theorem checkRateLimit_never_seen_client_allowed_witness :
    ((fun _ => (none : Option IPData)) "198.51.100.2" = none ∧ (60 : Int) ≤ 60) ∧
    (load_ip_data (fun _ => none) "198.51.100.2" = defaultIPData ∧
     check_rate_limit defaultConfig (load_ip_data (fun _ => none) "198.51.100.2") 60 =
       some { valid := true
              limit_type := RateLimitType.NONE
              remaining_cooldown := 0
              next_reset := 0
              stats := get_usage_stats defaultConfig [] 60 }) :=
  ⟨⟨rfl, by decide⟩,
   checkRateLimit_never_seen_client_allowed (fun _ => none) "198.51.100.2" defaultConfig 60
     rfl (by decide) (by decide) (by decide)⟩

/-- Claim C1, counterexample: with `hourly_limit = 2`, the cooldown
elapsed and 2 retained requests inside the last hour, but the oldest of
them only 50 seconds from leaving the window, `_get_next_reset` computes
`int(50 / 60) = 0` and `check_rate_limit` returns valid = true — while the
claim asserts a denial with kind HourlyLimit. -/
theorem checkRateLimit_hourly_boundary_allows :
    (¬ ((10000 : Int) - 6460 < 60)) ∧
    ((((cleanup_old_requests [6450, 6460] 10000).filter
        (fun req => req > (10000 : Int) - 3600)).length : Int) ≥ 2) ∧
    check_rate_limit ⟨2, 25, 60⟩ ⟨[6450, 6460], 6460⟩ 10000 =
      some { valid := true
             limit_type := RateLimitType.NONE
             remaining_cooldown := 0
             next_reset := 0
             stats := ⟨2, 2, 2, 25, 0, 23⟩ } :=
  ⟨by decide, by decide, by decide⟩

/-- Claim C1 (amended): if the cooldown has elapsed, at least
`hourly_limit` retained requests are strictly newer than `now - 3600`, and
the oldest such request `m` satisfies `60 ≤ m + 3600 - now` (at least one
full minute before it leaves the window) and `m < now`, then
`check_rate_limit` denies with `limit_type = HOURLY_LIMIT` and
`next_reset` equal to the floor of `(m + 3600 - now) / 60` minutes. -/
theorem checkRateLimit_hourly_limit_denies (cfg : Config) (data : IPData) (now m : Int)
    (hcool : ¬ (now - data.last_request < cfg.cooldown_seconds))
    (hcount : (((cleanup_old_requests data.requests now).filter
        (fun req => req > now - 3600)).length : Int) ≥ cfg.hourly_limit)
    (hm : ((cleanup_old_requests data.requests now).filter
        (fun req => req > now - 3600)).min? = some m)
    (hlow : 60 ≤ m + 3600 - now) (hup : m < now) :
    ∃ r, check_rate_limit cfg data now = some r ∧
      r.valid = false ∧ r.limit_type = RateLimitType.HOURLY_LIMIT ∧
      r.next_reset = (m + 3600 - now) / 60 := by
  have hrem : get_reminder_cooldown cfg
      { data with requests := cleanup_old_requests data.requests now } now = 0 := by
    simp only [get_reminder_cooldown]
    exact if_neg hcool
  have hnr : get_next_reset cfg (cleanup_old_requests data.requests now) now
      = some ((m + 3600 - now).tdiv 60) := by
    simp only [get_next_reset]
    rw [if_pos hcount, hm]
  have htdiv : (m + 3600 - now).tdiv 60 = (m + 3600 - now) / 60 :=
    Int.tdiv_eq_ediv (by omega) (by omega)
  have h1 : 1 ≤ (m + 3600 - now) / 60 := by omega
  have h59 : (m + 3600 - now) / 60 < 60 := by omega
  have hbeq : ((m + 3600 - now).tdiv 60 == 0) = false := by
    rw [beq_eq_false_iff_ne, htdiv]
    omega
  have hck : check_rate_limit cfg data now = some
      { valid := false
        limit_type := RateLimitType.HOURLY_LIMIT
        remaining_cooldown := 0
        next_reset := (m + 3600 - now).tdiv 60
        stats := get_usage_stats cfg (cleanup_old_requests data.requests now) now } := by
    simp only [check_rate_limit, hrem, hnr]
    simp [hbeq, htdiv, h59]
    omega
  exact ⟨_, hck, rfl, rfl, by simp [htdiv]⟩

/-- Concrete instance of the hourly denial claim. -/
theorem checkRateLimit_hourly_limit_denies_witness :
    (¬ ((10000 : Int) - 7300 < 60)) ∧
    (((cleanup_old_requests [7000, 7300] 10000).filter
        (fun req => req > (10000 : Int) - 3600)).min? = some 7000) ∧
    ∃ r, check_rate_limit ⟨2, 25, 60⟩ ⟨[7000, 7300], 7300⟩ 10000 = some r ∧
      r.valid = false ∧ r.limit_type = RateLimitType.HOURLY_LIMIT ∧
      r.next_reset = ((7000 : Int) + 3600 - 10000) / 60 :=
  ⟨by decide, by decide,
   checkRateLimit_hourly_limit_denies ⟨2, 25, 60⟩ ⟨[7000, 7300], 7300⟩ 10000 7000
     (by decide) (by decide) (by decide) (by decide) (by decide)⟩

/-- Claim C2: evaluation at the failing input.  The cooldown has elapsed,
the hourly count is 0 < 10, and the daily count is 2 ≥ daily_limit = 2, so
the daily limit fires with `next_reset = int((20000 + 86400 - 30000) /
3600) = 21` hours and the request is denied — but `check_rate_limit`
classifies the denial as `HOURLY_LIMIT`, because its classification tests
`next_reset < 60` and a daily reset estimate is at most 24 (hours).  The
`RateLimitType.DAILY_LIMIT` member and the UI layer, which renders
DAILY_LIMIT with an hours message and HOURLY_LIMIT with a minutes message,
show the claimed classification is the intended one. -/
theorem checkRateLimit_daily_breach_misclassified :
    (¬ ((30000 : Int) - 21000 < 60)) ∧
    ((((cleanup_old_requests [20000, 21000] 30000).filter
        (fun req => req > (30000 : Int) - 3600)).length : Int) < 10) ∧
    (((cleanup_old_requests [20000, 21000] 30000).length : Int) ≥ 2) ∧
    check_rate_limit ⟨10, 2, 60⟩ ⟨[20000, 21000], 21000⟩ 30000 =
      some { valid := false
             limit_type := RateLimitType.HOURLY_LIMIT
             remaining_cooldown := 0
             next_reset := 21
             stats := ⟨0, 10, 2, 2, 10, 0⟩ } :=
  ⟨by decide, by decide, by decide, by decide⟩

/-- Claim C5: for a stored, readable entry, `get` returns the stored
summary exactly when `now - created_at ≤ cache_hours * 3600`; when the age
exceeds the ttl, `get` returns none, deletes the entry, and a subsequent
`get` at any time finds no entry. -/
theorem cacheGet_ttl_validity (c : URLCache) (url : String) (now now2 : Int) (e : CacheEntry)
    (hen : c.cache_enabled = true) (he : c.entries url = some e) :
    (now - e.timestamp ≤ c.cache_hours * 3600 →
      cache_get c url now = (some e.summary, c)) ∧
    (c.cache_hours * 3600 < now - e.timestamp →
      (cache_get c url now).1 = none ∧
      ((cache_get c url now).2).entries url = none ∧
      (cache_get ((cache_get c url now).2) url now2).1 = none) := by
  constructor
  · intro hfresh
    have hnot : ¬ (now - e.timestamp > c.cache_hours * 3600) := by omega
    simp [cache_get, hen, he, hnot]
  · intro hexp
    have hgt : now - e.timestamp > c.cache_hours * 3600 := by omega
    have hget : cache_get c url now =
        (none, { c with entries := fun k => if k = url then none else c.entries k }) := by
      simp [cache_get, hen, he, hgt]
    refine ⟨by rw [hget], ?_, ?_⟩
    · rw [hget]
      simp
    · rw [hget]
      simp [cache_get, hen]

/-- Concrete instance of the cache expiry claim. -/
theorem cacheGet_ttl_validity_witness :
    (cache_get ⟨true, 24, fun k => if k = "u" then some ⟨"u", "sum", 0⟩ else none⟩ "u" 90000).1
        = none ∧
    ((cache_get ⟨true, 24, fun k => if k = "u" then some ⟨"u", "sum", 0⟩ else none⟩ "u" 90000).2).entries "u"
        = none ∧
    (cache_get ((cache_get ⟨true, 24, fun k => if k = "u" then some ⟨"u", "sum", 0⟩ else none⟩ "u" 90000).2) "u" 90500).1
        = none :=
  (cacheGet_ttl_validity ⟨true, 24, fun k => if k = "u" then some ⟨"u", "sum", 0⟩ else none⟩
      "u" 90000 90500 ⟨"u", "sum", 0⟩ rfl (by decide)).2 (by decide)

/-- Claim C4: `set(u, v)` immediately followed by `get(u)` returns `v`
(for an enabled cache with nonnegative ttl), and a request answered from
the cache returns the cached-result response and leaves the rate-limit
store untouched — the limiter is never consulted on a cache hit. -/
theorem cache_roundtrip_and_cache_hit_bypasses_limiter
    (c : URLCache) (u v : String) (now : Int)
    (hen : c.cache_enabled = true) (hh : 0 ≤ c.cache_hours)
    (cfg : Config) (w : WorldState) (url client_ip : String) (t : Int)
    (ext : Option String) (s : String)
    (hhit : (cache_get w.cache url t).1 = some s) (hs : s ≠ "") :
    (cache_get (cache_set c u v now) u now).1 = some v ∧
    (summarize_webpage cfg w url client_ip t ext).1 = Response.cachedResult s ∧
    (summarize_webpage cfg w url client_ip t ext).2.limiter_store = w.limiter_store := by
  have hbypass : summarize_webpage cfg w url client_ip t ext =
      (Response.cachedResult s, { w with cache := (cache_get w.cache url t).2 }) := by
    rcases hg : cache_get w.cache url t with ⟨res, c1⟩
    rw [hg] at hhit
    simp only at hhit
    subst hhit
    simp [summarize_webpage, hg, hs]
  have hset : cache_set c u v now =
      { c with entries := fun k => if k = u then some ⟨u, v, now⟩ else c.entries k } := by
    simp [cache_set, hen]
  have hnot : ¬ ((now : Int) - now > c.cache_hours * 3600) := by omega
  have hnot2 : ¬ (c.cache_hours * 3600 < 0) := by omega
  refine ⟨?_, ?_, ?_⟩
  · rw [hset]
    simp [cache_get, hen, hnot, hnot2]
  · rw [hbypass]
  · rw [hbypass]

/-- Concrete instance of the cache round-trip and bypass claim. -/
theorem cache_roundtrip_and_cache_hit_bypasses_limiter_witness :
    ((cache_get
        (WorldState.mk (fun _ => some ⟨[5], 5⟩)
          ⟨true, 24, fun k => if k = "x" then some ⟨"x", "s", 0⟩ else none⟩).cache "x" 10).1
      = some "s") ∧
    ((cache_get (cache_set ⟨true, 24, fun _ => none⟩ "a" "v" 0) "a" 0).1 = some "v" ∧
     (summarize_webpage defaultConfig
        (WorldState.mk (fun _ => some ⟨[5], 5⟩)
          ⟨true, 24, fun k => if k = "x" then some ⟨"x", "s", 0⟩ else none⟩) "x" "c" 10 none).1
       = Response.cachedResult "s" ∧
     (summarize_webpage defaultConfig
        (WorldState.mk (fun _ => some ⟨[5], 5⟩)
          ⟨true, 24, fun k => if k = "x" then some ⟨"x", "s", 0⟩ else none⟩) "x" "c" 10 none).2.limiter_store
       = (WorldState.mk (fun _ => some ⟨[5], 5⟩)
          ⟨true, 24, fun k => if k = "x" then some ⟨"x", "s", 0⟩ else none⟩).limiter_store) :=
  ⟨by decide,
   cache_roundtrip_and_cache_hit_bypasses_limiter ⟨true, 24, fun _ => none⟩ "a" "v" 0
     rfl (by decide) defaultConfig
     (WorldState.mk (fun _ => some ⟨[5], 5⟩)
       ⟨true, 24, fun k => if k = "x" then some ⟨"x", "s", 0⟩ else none⟩)
     "x" "c" 10 none "s" (by decide) (by decide)⟩

/-- Claim C7, counterexample: a client with two requests in the last hour
is allowed, and the step-2 check reports hourly_used = 2 and
daily_used = 2, but the success response carries statistics computed from
the one-element list holding only the current time — hourly_used = 1 and
daily_used = 1 — so the attached stats do not equal the step-2 stats. -/
theorem success_stats_differ_from_check_stats :
    app_check_rate_limit defaultConfig (load_ip_data statsExampleWorld.limiter_store "c") 20000 =
      some (true, AppMessage.requestAllowed, ⟨2, 10, 2, 25, 8, 23⟩) ∧
    (summarize_webpage defaultConfig statsExampleWorld "u" "c" 20000 (some "S")).1 =
      Response.success "S" ⟨1, 10, 1, 25, 9, 24⟩ ∧
    (UsageStats.mk 1 10 1 25 9 24) ≠ ⟨2, 10, 2, 25, 8, 23⟩ :=
  ⟨by decide, by decide, by decide⟩

/-- Helper: whenever the post-cache-miss path produces a success response,
the statistics it carries are computed from the one-element list
`[current_time]`. -/
theorem handle_uncached_success_stats (cfg : Config) (w1 : WorldState)
    (url client_ip : String) (now : Int) (ext : Option String)
    (s : String) (st : UsageStats)
    (h : (handle_uncached cfg w1 url client_ip now ext).1 = Response.success s st) :
    st = get_usage_stats cfg [now] now := by
  rcases hck : app_check_rate_limit cfg (load_ip_data w1.limiter_store client_ip) now with
    _ | ⟨allowed, message, stats⟩
  · simp [handle_uncached, hck] at h
  · by_cases ha : allowed = false
    · subst ha
      simp [handle_uncached, hck] at h
    · rcases ext with _ | summary
      · simp [handle_uncached, hck, ha] at h
      · simp [handle_uncached, hck, ha] at h
        rw [← h.2]
        rfl

/-- Claim C7 (amended): the usage statistics attached to every success
response are `_get_usage_stats` of the one-element list `[now]` —
hourly_used = 1 and daily_used = 1 regardless of the actual client record;
they agree with the stats of the step-2 check only when those happen to
equal this constant. -/
theorem success_response_stats_constant (cfg : Config) (w : WorldState)
    (url client_ip : String) (now : Int) (ext : Option String)
    (s : String) (st : UsageStats)
    (h : (summarize_webpage cfg w url client_ip now ext).1 = Response.success s st) :
    st = get_usage_stats cfg [now] now := by
  rcases hg : cache_get w.cache url now with ⟨res, c1⟩
  rcases res with _ | sc
  · simp only [summarize_webpage, hg] at h
    exact handle_uncached_success_stats _ _ _ _ _ _ _ _ h
  · by_cases hsc : sc = ""
    · subst hsc
      simp only [summarize_webpage, hg, if_pos rfl] at h
      exact handle_uncached_success_stats _ _ _ _ _ _ _ _ h
    · simp only [summarize_webpage, hg, if_neg hsc] at h
      simp at h

/-- Concrete instance of the constant success statistics claim. -/
theorem success_response_stats_constant_witness :
    ((summarize_webpage defaultConfig statsExampleWorld "u" "c" 20000 (some "S")).1 =
      Response.success "S" ⟨1, 10, 1, 25, 9, 24⟩) ∧
    (UsageStats.mk 1 10 1 25 9 24) = get_usage_stats defaultConfig [20000] 20000 :=
  ⟨by decide,
   success_response_stats_constant defaultConfig statsExampleWorld "u" "c" 20000 (some "S")
     "S" ⟨1, 10, 1, 25, 9, 24⟩ (by decide)⟩

/-- Claim C10: when the cache holds a valid, unexpired entry for the url
whose stored summary is the empty string, `summarize_webpage` treats the
lookup as a cache miss: the rate limiter is consulted, and on an allow
decision the request is recorded in the limiter store and the external
summarizer invoked, producing a success response. -/
theorem empty_cached_summary_treated_as_miss (cfg : Config) (w : WorldState)
    (url client_ip : String) (now : Int) (s : String)
    (e : CacheEntry) (msg : AppMessage) (st : UsageStats)
    (hen : w.cache.cache_enabled = true)
    (he : w.cache.entries url = some e)
    (hs : e.summary = "")
    (hfresh : ¬ (now - e.timestamp > w.cache.cache_hours * 3600))
    (hallow : app_check_rate_limit cfg (load_ip_data w.limiter_store client_ip) now =
      some (true, msg, st)) :
    summarize_webpage cfg w url client_ip now (some s) =
      (Response.success s (get_usage_stats cfg [now] now),
       { limiter_store := fun k => if k = client_ip then
           some (record_request (load_ip_data w.limiter_store client_ip) now)
         else w.limiter_store k,
         cache := cache_set w.cache url s now }) := by
  have hget : cache_get w.cache url now = (some e.summary, w.cache) := by
    simp [cache_get, hen, he, hfresh]
  simp only [summarize_webpage, hget, hs, if_pos rfl]
  simp [handle_uncached, hallow, cleanup_old_requests]

/-- Concrete instance of the empty-cached-summary claim. -/
theorem empty_cached_summary_treated_as_miss_witness :
    (emptySummaryWorld.cache.entries "u" = some ⟨"u", "", 19000⟩ ∧
     app_check_rate_limit defaultConfig (load_ip_data emptySummaryWorld.limiter_store "c") 20000 =
       some (true, AppMessage.requestAllowed, ⟨0, 10, 1, 25, 10, 24⟩)) ∧
    summarize_webpage defaultConfig emptySummaryWorld "u" "c" 20000 (some "S") =
      (Response.success "S" (get_usage_stats defaultConfig [20000] 20000),
       { limiter_store := fun k => if k = "c" then
           some (record_request (load_ip_data emptySummaryWorld.limiter_store "c") 20000)
         else emptySummaryWorld.limiter_store k,
         cache := cache_set emptySummaryWorld.cache "u" "S" 20000 }) :=
  ⟨⟨by decide, by decide⟩,
   empty_cached_summary_treated_as_miss defaultConfig emptySummaryWorld "u" "c" 20000 "S"
     ⟨"u", "", 19000⟩ AppMessage.requestAllowed ⟨0, 10, 1, 25, 10, 24⟩
     rfl (by decide) rfl (by decide) (by decide)⟩

end WebpageSummarizer
